import Mathlib

/-!
# Verification of the hermes audit-event query service

Shallow Lean embedding of the core of the `hermes` repository:

* `pkg/keystone/keystone.go` — the token cache (`keystoneTokenCache`,
  `addTokenToCache`, `getCachedToken`), the string name caches
  (`cache`, `updateCache`, `getFromCache`) and the `UserId` lookup;
* `pkg/hermes/events.go` — the filter translator (`storageFilter`),
  the list projection (`eventsList`), the enrichment helper
  (`namesForIds`) and the entry points `GetEvents` / `GetEvent`;
* `pkg/storage/interface.go` — the data model (`storage.Filter`,
  `storage.EventDetail`) and the `Storage` interface;
* `pkg/storage/mock.go` — `MaxLimit() = 100` for the mock driver.

Modelling conventions:

* time instants are `Nat`; Go maps are total functions returning the Go
  zero value (`none` / `[]` / `""`) for absent keys;
* Go `(value, err)` pairs are `α × Bool` with `true` meaning a non-nil
  error (error *texts* coming from libraries are opaque and modelled by
  fixed placeholder strings);
* the external identity provider and the search backend are pure
  oracles (`Identity`, `StorageOracle`); the calls a run issues are
  collected in result fields (`idCalls`, `storageCalls`) so that
  "never calls the identity client / storage" is a provable statement;
* Go `uint` is 64 bits wide on the build platform (linux/amd64 per the
  repository's Dockerfile), so `+` on `uint` wraps modulo `2 ^ 64`.
-/

set_option maxHeartbeats 1000000

namespace Keystone

/-- A Keystone token record (`keystoneToken` in `pkg/keystone/keystone.go`).
Only the expiry matters to the token cache; the Go `ExpiresAt` string field
is modelled by the result of
`time.Parse("2006-01-02T15:04:05.999999Z", token.ExpiresAt)`:
`some t` is a successfully parsed instant, `none` an unparseable string
(the `err != nil` branch of `addTokenToCache`).  The remaining token fields
(user, project, domain, roles) are not read by any cache operation. -/
structure KeystoneToken where
  expiresAt : Option Nat
deriving DecidableEq, Repr

/-- The token cache (`keystoneTokenCache`): `tMap` maps a token id to its
record, `eMap` maps an expiry instant to the token ids carrying it, and
`eList` is the (intendedly sorted) `container/list` of expiry instants. -/
structure KeystoneTokenCache where
  tMap : String → Option KeystoneToken
  eMap : Nat → List String
  eList : List Nat

/-- The freshly initialised token cache (`init()` in keystone.go). -/
def emptyTokenCache : KeystoneTokenCache :=
  { tMap := fun _ => none, eMap := fun _ => [], eList := [] }

/-- `container/list` `MoveAfter(back, e)` where `e` sits at index `i`:
the last element of the list is moved to the position directly after
index `i` (a no-op when the last element is `e` itself). -/
def moveAfterIdx (l : List Nat) (i : Nat) : List Nat :=
  match l.getLast? with
  | none => l
  | some x => (l.dropLast.take (i + 1)) ++ x :: l.dropLast.drop (i + 1)

/-- One iteration of the re-sort loop body of `addTokenToCache`:
`if expiryTime.After(e.Value) { cache.eList.MoveAfter(cache.eList.Back(), e) }`,
with the loop variable `e` at index `i`. -/
def moveStep (expiry : Nat) (l : List Nat) (i : Nat) : List Nat :=
  match l.get? i with
  | some v => if v < expiry then moveAfterIdx l i else l
  | none => l

/-- The re-sort loop of `addTokenToCache`
(`for e := cache.eList.Back(); e != nil; e = e.Prev()`): the element `e`
walks from the back (index `l.length - 1`) to the front; a move of the
back element to just after `e` never changes the index of `e`, so `Prev`
is index `i - 1`. -/
def moveLoop (expiry : Nat) : List Nat → Nat → List Nat
  | l, 0 => moveStep expiry l 0
  | l, Nat.succ j => moveLoop expiry (moveStep expiry l (j + 1)) j

/-- `addTokenToCache` (keystone.go lines 71–98).  The new expiry is pushed
at the back; then `lastItem := cache.eList.Back()` — the element that was
*just pushed* — and the re-sort branch runs only when
`expiryTime.Before(lastItem.Value)`. -/
def addTokenToCache (c : KeystoneTokenCache) (id : String) (token : KeystoneToken) :
    KeystoneTokenCache :=
  match token.expiresAt with
  | none => c
  | some expiryTime =>
    let eList1 := c.eList ++ [expiryTime]
    let eList2 :=
      match eList1.getLast? with
      | none => eList1
      | some lastItem =>
        if expiryTime < lastItem then moveLoop expiryTime eList1 (eList1.length - 1)
        else eList1
    { tMap := fun k => if k = id then some token else c.tMap k
      eMap := fun t => if t = expiryTime then c.eMap t ++ [id] else c.eMap t
      eList := eList2 }

/-- Length of the prefix of `eList` collected into `elemsToRemove` by
`getCachedToken`: the Go loop breaks at the first element with
`now.Before(expiryTime)`. -/
def expiredPrefixLen (now : Nat) : List Nat → Nat
  | [] => 0
  | t :: rest => if now < t then 0 else expiredPrefixLen now rest + 1

/-- `getCachedToken` (keystone.go lines 100–138) at instant `now`
(`time.Now()`): collect the prefix of not-yet-unexpired list elements,
remove each collected expiry from `eList` and `eMap` and its token ids from
`tMap`, then look the requested token up.  Returns the lookup result
together with the mutated cache. -/
def getCachedToken (c : KeystoneTokenCache) (id : String) (now : Nat) :
    Option KeystoneToken × KeystoneTokenCache :=
  let k := expiredPrefixLen now c.eList
  let removedTimes := c.eList.take k
  let c1 := removedTimes.foldl (fun acc t =>
      let tokenIds := acc.eMap t
      { tMap := fun s => if tokenIds.contains s then none else acc.tMap s
        eMap := fun u => if u = t then [] else acc.eMap u
        eList := acc.eList }) c
  let c2 : KeystoneTokenCache := { c1 with eList := c.eList.drop k }
  (c2.tMap id, c2)

/-- The string→string name cache (`cache` struct in keystone.go).  The Go
two-valued map read `value, exists := cache.m[key]` is modelled by
`Option String`. -/
structure NameCache where
  m : String → Option String

/-- The cache with no entries. -/
def emptyNameCache : NameCache := ⟨fun _ => none⟩

/-- `updateCache` (keystone.go lines 51–55). -/
def updateCache (c : NameCache) (key value : String) : NameCache :=
  ⟨fun k => if k = key then some value else c.m k⟩

/-- `getFromCache` (keystone.go lines 57–62). -/
def getFromCache (c : NameCache) (key : String) : Option String :=
  c.m key

/-- `KeystoneNameId` as used by `UserId` (fields `UUID` and `Name`). -/
structure KeystoneNameId where
  uuid : String
  name : String
deriving DecidableEq, Repr

/-- Outcome of the provider round trip inside `UserId`: the
`keystoneClient()` call may fail, the `client.Get` may fail, the
`ExtractInto` may fail, or a list of matching users is extracted. -/
inductive UsersQueryResult where
  | clientErr
  | getErr
  | extractErr
  | users (l : List KeystoneNameId)
deriving DecidableEq, Repr

/-- The error text of the zero-match branch of `UserId`. -/
def noUserMsg (name : String) : String :=
  s!"No user found with name {name}"

/-- The warning text of the multiple-match branch of `UserId`. -/
def multiUserMsg (name : String) : String :=
  s!"Multiple users found with name {name} - returning the first one"

/-- Everything a `UserId` call produces: the returned `(userId, err)` pair,
the warnings logged, whether the `users?name=` search was issued against the
provider, and the two caches after the call. -/
structure UserIdResult where
  userId : String
  isErr : Bool
  errMsg : String
  warnings : List String
  searched : Bool
  userIdCache : NameCache
  userNameCache : NameCache

/-- `UserId` (keystone.go lines 348–385).  On a cache hit the cached id is
returned.  On a miss the provider search runs; when user extraction
succeeds, the zero/one/many switch fixes `userId` (and the error or
warning), and *both* name caches are updated — also in the zero-match
error branch, where `userId` is still `""`. -/
def UserId (provider : String → UsersQueryResult) (uidCache unameCache : NameCache)
    (name : String) : UserIdResult :=
  match getFromCache uidCache name with
  | some cachedId =>
    { userId := cachedId, isErr := false, errMsg := "", warnings := [],
      searched := false, userIdCache := uidCache, userNameCache := unameCache }
  | none =>
    match provider name with
    | UsersQueryResult.clientErr =>
      { userId := "", isErr := true, errMsg := "client error", warnings := [],
        searched := false, userIdCache := uidCache, userNameCache := unameCache }
    | UsersQueryResult.getErr =>
      { userId := "", isErr := true, errMsg := "get error", warnings := [],
        searched := true, userIdCache := uidCache, userNameCache := unameCache }
    | UsersQueryResult.extractErr =>
      { userId := "", isErr := true, errMsg := "extract error", warnings := [],
        searched := true, userIdCache := uidCache, userNameCache := unameCache }
    | UsersQueryResult.users l =>
      let r :=
        match l with
        | [] => ("", true, noUserMsg name, ([] : List String))
        | [u] => (u.uuid, false, "", [])
        | u :: _ :: _ => (u.uuid, false, "", [multiUserMsg name])
      { userId := r.1, isErr := r.2.1, errMsg := r.2.2.1, warnings := r.2.2.2,
        searched := true,
        userIdCache := updateCache uidCache name r.1,
        userNameCache := updateCache unameCache r.1 name }

end Keystone

namespace Storage

/-- `storage.FieldOrder` (pkg/storage/interface.go). -/
structure FieldOrder where
  fieldname : String
  order : String
deriving DecidableEq, Repr

/-- The backend filter `storage.Filter`: like `hermes.Filter` but with ids
instead of names.  The `Time` map is carried verbatim and modelled as an
association list. -/
structure Filter where
  source : String := ""
  resourceType : String := ""
  resourceId : String := ""
  userId : String := ""
  eventType : String := ""
  time : List (String × String) := []
  offset : Nat := 0
  limit : Nat := 0
  sort : List FieldOrder := []
deriving DecidableEq, Repr

/-- The `host` block of a CADF initiator. -/
structure Host where
  agent : String := ""
  address : String := ""
deriving DecidableEq, Repr

/-- The `initiator` block of `storage.EventDetail.Payload`. -/
structure Initiator where
  typeURI : String := ""
  domainID : String := ""
  domainName : String := ""
  projectID : String := ""
  projectName : String := ""
  userID : String := ""
  userName : String := ""
  host : Host := {}
  id : String := ""
deriving DecidableEq, Repr

/-- The `target` block of `storage.EventDetail.Payload`. -/
structure Target where
  typeURI : String := ""
  id : String := ""
  name : String := ""
deriving DecidableEq, Repr

/-- The `observer` block of `storage.EventDetail.Payload`. -/
structure Observer where
  typeURI : String := ""
  id : String := ""
deriving DecidableEq, Repr

/-- The CADF payload of `storage.EventDetail`. -/
structure Payload where
  observer : Observer := {}
  resourceInfo : String := ""
  typeURI : String := ""
  initiator : Initiator := {}
  eventTime : String := ""
  action : String := ""
  eventType : String := ""
  id : String := ""
  outcome : String := ""
  role : String := ""
  roleName : String := ""
  project : String := ""
  projectName : String := ""
  user : String := ""
  userName : String := ""
  group : String := ""
  groupName : String := ""
  target : Target := {}
deriving DecidableEq, Repr

/-- `storage.EventDetail` (pkg/storage/interface.go lines 62–108). -/
structure EventDetail where
  publisherID : String := ""
  eventType : String := ""
  payload : Payload := {}
  messageID : String := ""
  priority : String := ""
  timestamp : String := ""
deriving DecidableEq, Repr

end Storage

namespace Hermes

/-- The `identity.Identity` operations consumed by `pkg/hermes/events.go`,
as a pure oracle.  Each operation returns the Go `(value, err)` pair with
the error modelled as a `Bool` flag (`true` = non-nil error). -/
structure Identity where
  domainName : String → String × Bool
  projectName : String → String × Bool
  userName : String → String × Bool
  roleName : String → String × Bool
  groupName : String → String × Bool
  userId : String → String × Bool

/-- One identity-client call, recorded in order of issue. -/
inductive IdCall where
  | domainName (id : String)
  | projectName (id : String)
  | userName (id : String)
  | roleName (id : String)
  | groupName (id : String)
  | userId (name : String)
deriving DecidableEq, Repr

/-- `hermes.FieldOrder` (pkg/hermes/events.go lines 60–63). -/
structure FieldOrder where
  fieldname : String
  order : String
deriving DecidableEq, Repr

/-- The user-facing `hermes.Filter` (pkg/hermes/events.go lines 66–76). -/
structure Filter where
  source : String := ""
  resourceType : String := ""
  resourceName : String := ""
  userName : String := ""
  eventType : String := ""
  time : List (String × String) := []
  offset : Nat := 0
  limit : Nat := 0
  sort : List FieldOrder := []
deriving DecidableEq, Repr

/-- The anonymous `Initiator` struct of `hermes.ListEvent`; its fields
mirror `storage.Initiator` exactly. -/
structure ListEventInitiator where
  typeURI : String := ""
  domainID : String := ""
  domainName : String := ""
  projectID : String := ""
  projectName : String := ""
  userID : String := ""
  userName : String := ""
  host : Storage.Host := {}
  id : String := ""
deriving DecidableEq, Repr

/-- `hermes.ListEvent` (pkg/hermes/events.go lines 35–57). -/
structure ListEvent where
  source : String := ""
  id : String := ""
  type : String := ""
  time : String := ""
  resourceName : String := ""
  resourceId : String := ""
  resourceType : String := ""
  initiator : ListEventInitiator := {}
deriving DecidableEq, Repr

/-- `copier.Copy(&event.Initiator, &storageEvent.Payload.Initiator)`:
the two structs have identical exported fields, so the copy is field-wise
and cannot fail. -/
def initiatorCopy (i : Storage.Initiator) : ListEventInitiator :=
  { typeURI := i.typeURI, domainID := i.domainID, domainName := i.domainName,
    projectID := i.projectID, projectName := i.projectName, userID := i.userID,
    userName := i.userName, host := i.host, id := i.id }

/-- `copier.Copy(&storagefieldorder, &filter.Sort)`: field-wise copy of one
sort entry into the structurally identical `storage.FieldOrder`. -/
def fieldOrderCopy (f : FieldOrder) : Storage.FieldOrder :=
  { fieldname := f.fieldname, order := f.order }

/-- Go `uint` is 64 bits wide on the build platform; unsigned addition
wraps modulo this. -/
def uintMod : Nat := 2 ^ 64

/-- The error text of the limit check in `storageFilter`
(`fmt.Errorf("offset %d plus limit %d exceeds the maximum of %d", …)`). -/
def limitErrMsg (offset limit maxLimit : Nat) : String :=
  s!"offset {offset} plus limit {limit} exceeds the maximum of {maxLimit}"

/-- The `storage.Filter` literal built at pkg/hermes/events.go lines
112–120, with `limit` the (possibly rewritten) limit. -/
def baseStorageFilter (filter : Filter) (limit : Nat) : Storage.Filter :=
  { source := filter.source, resourceType := filter.resourceType,
    resourceId := "", userId := "",
    eventType := filter.eventType, time := filter.time,
    offset := filter.offset, limit := limit,
    sort := filter.sort.map fieldOrderCopy }

/-- The `if filter.ResourceName != "" { … }` branch (events.go lines
122–125): its body is *empty* in the source (a TODO comment), so the
backend filter is returned unchanged whatever `resourceName` is. -/
def applyResourceName (_filter : Filter) (sf : Storage.Filter) : Storage.Filter :=
  sf

/-- The `if filter.UserName != "" { … }` branch (events.go lines 126–133):
the `keystoneDriver.UserId` resolution is commented out in the source, so
the branch only copies the *name* verbatim into `UserId` (after a debug
log). -/
def applyUserName (filter : Filter) (sf : Storage.Filter) : Storage.Filter :=
  if filter.userName ≠ "" then { sf with userId := filter.userName } else sf

/-- `storageFilter` (pkg/hermes/events.go lines 96–135).  `maxLimit` is
`eventStore.MaxLimit()`.  The identity-client argument is part of the Go
signature but never consulted (see `applyUserName`); the second component
records the identity calls issued — none on every path. -/
def storageFilter (_ks : Identity) (maxLimit : Nat) (filter : Filter) :
    Except String Storage.Filter × List IdCall :=
  let limit := if filter.limit = 0 then 10 else filter.limit
  if (filter.offset + limit) % uintMod > maxLimit then
    (Except.error (limitErrMsg filter.offset limit maxLimit), [])
  else
    (Except.ok (applyUserName filter (applyResourceName filter (baseStorageFilter filter limit))),
     [])

/-- The id map handed to `namesForIds`; Go map keys that are not set read
as `""`. -/
structure IdMap where
  initUserDomain : String := ""
  initUserProject : String := ""
  initUser : String := ""
  project : String := ""
  user : String := ""
  group : String := ""
  role : String := ""
  target : String := ""
deriving DecidableEq, Repr

/-- The name map `namesForIds` returns; keys never assigned read as `""`
(Go zero value of a missing map key). -/
structure NameMap where
  initUserDomain : String := ""
  initUserProject : String := ""
  initUser : String := ""
  project : String := ""
  user : String := ""
  group : String := ""
  role : String := ""
  target : String := ""
deriving DecidableEq, Repr

/-- `namesForIds` (pkg/hermes/events.go lines 210–280).  Each non-empty id
triggers one lookup; the *value* component of the lookup is written into
the name map even when the lookup errors (the error is only logged).  The
target name is resolved by `target.typeURI`: project targets via
`ProjectName`, user targets and unhandled types are not resolved. -/
def namesForIds (ks : Identity) (idMap : IdMap) (targetType : String) :
    NameMap × List IdCall :=
  let rDom := if idMap.initUserDomain ≠ "" then
      ((ks.domainName idMap.initUserDomain).1, [IdCall.domainName idMap.initUserDomain])
    else ("", [])
  let rProj := if idMap.initUserProject ≠ "" then
      ((ks.projectName idMap.initUserProject).1, [IdCall.projectName idMap.initUserProject])
    else ("", [])
  let rUser := if idMap.initUser ≠ "" then
      ((ks.userName idMap.initUser).1, [IdCall.userName idMap.initUser])
    else ("", [])
  let rProject := if idMap.project ≠ "" then
      ((ks.projectName idMap.project).1, [IdCall.projectName idMap.project])
    else ("", [])
  let rUser2 := if idMap.user ≠ "" then
      ((ks.userName idMap.user).1, [IdCall.userName idMap.user])
    else ("", [])
  let rGroup := if idMap.group ≠ "" then
      ((ks.groupName idMap.group).1, [IdCall.groupName idMap.group])
    else ("", [])
  let rRole := if idMap.role ≠ "" then
      ((ks.roleName idMap.role).1, [IdCall.roleName idMap.role])
    else ("", [])
  let rTarget :=
    match targetType with
    | "data/security/project" =>
      ((ks.projectName idMap.target).1, [IdCall.projectName idMap.target])
    | "service/security/account/user" => ("", ([] : List IdCall))
    | _ => ("", [])
  ({ initUserDomain := rDom.1, initUserProject := rProj.1, initUser := rUser.1,
     project := rProject.1, user := rUser2.1, group := rGroup.1, role := rRole.1,
     target := rTarget.1 },
   rDom.2 ++ rProj.2 ++ rUser.2 ++ rProject.2 ++ rUser2.2 ++ rGroup.2 ++ rRole.2 ++ rTarget.2)

/-- `strings.SplitN(s, ".", 2)`: at most two pieces, split at the first
dot. -/
def goSplitN2Dot (s : String) : List String :=
  if s.data.contains '.' then
    [String.mk (s.data.takeWhile (fun c => c ≠ '.')),
     String.mk ((s.data.dropWhile (fun c => c ≠ '.')).tail)]
  else [s]

/-- The `ListEvent` literal built for one storage event (events.go lines
142–153), before any enrichment. -/
def listEventOf (ev : Storage.EventDetail) : ListEvent :=
  { source := (goSplitN2Dot ev.eventType).headD "",
    id := ev.messageID,
    type := ev.eventType,
    time := ev.payload.eventTime,
    resourceName := "",
    resourceId := ev.payload.target.id,
    resourceType := ev.payload.target.typeURI,
    initiator := initiatorCopy ev.payload.initiator }

/-- The enrichment block of `eventsList` (events.go lines 155–167): build
the name map for the event's ids and overwrite the four name fields. -/
def enrichOne (ks : Identity) (e : ListEvent) : ListEvent × List IdCall :=
  let r := namesForIds ks
    { initUserDomain := e.initiator.domainID,
      initUserProject := e.initiator.projectID,
      initUser := e.initiator.userID,
      target := e.resourceId } e.resourceType
  ({ e with
      initiator := { e.initiator with
        domainName := r.1.initUserDomain,
        projectName := r.1.initUserProject,
        userName := r.1.initUser },
      resourceName := r.1.target },
   r.2)

/-- `eventsList` (pkg/hermes/events.go lines 138–171); `enrich` is the
configuration flag `hermes.enrich_keystone_events`.  The second component
records the identity calls issued, in order. -/
def eventsList (ks : Identity) (enrich : Bool) :
    List Storage.EventDetail → List ListEvent × List IdCall
  | [] => ([], [])
  | ev :: rest =>
    let r := if enrich then enrichOne ks (listEventOf ev) else (listEventOf ev, [])
    let rs := eventsList ks enrich rest
    (r.1 :: rs.1, r.2 ++ rs.2)

/-- The `storage.Storage` interface as a pure oracle; errors are `Bool`
flags and `maxLimit` is `MaxLimit()` (100 for the mock driver). -/
structure StorageOracle where
  getEvents : Storage.Filter → String → List Storage.EventDetail × Int × Bool
  getEvent : String → String → Option Storage.EventDetail × Bool
  maxLimit : Nat

/-- Result of `hermes.GetEvents`, with the identity calls and the filters
passed to `storage.GetEvents` recorded. -/
structure GetEventsResult where
  result : Except String (List ListEvent × Int)
  idCalls : List IdCall
  storageCalls : List Storage.Filter

/-- `GetEvents` (pkg/hermes/events.go lines 79–94): translate the filter,
query storage, project (and optionally enrich) the events.  A filter error
returns before `storage.GetEvents` is called. -/
def GetEvents (ks : Identity) (enrich : Bool) (st : StorageOracle) (filter : Filter)
    (tenantId : String) : GetEventsResult :=
  match storageFilter ks st.maxLimit filter with
  | (Except.error e, calls) => { result := Except.error e, idCalls := calls, storageCalls := [] }
  | (Except.ok sf, calls) =>
    let r := st.getEvents sf tenantId
    if r.2.2 then
      { result := Except.error "storage error", idCalls := calls, storageCalls := [sf] }
    else
      let es := eventsList ks enrich r.1
      { result := Except.ok (es.1, r.2.1), idCalls := calls ++ es.2, storageCalls := [sf] }

/-- Result of `hermes.GetEvent`, with the identity calls recorded. -/
structure GetEventResult where
  event : Option Storage.EventDetail
  isErr : Bool
  idCalls : List IdCall

/-- `GetEvent` (pkg/hermes/events.go lines 174–201): fetch the event; when
the enrichment flag is on and the event is non-nil, resolve the full name
set (including the payload-root `project`/`user`/`group`/`role` ids) and
fill all `*_name` fields.  The returned error is the storage error. -/
def GetEvent (ks : Identity) (enrich : Bool) (st : StorageOracle)
    (eventID tenantId : String) : GetEventResult :=
  let r := st.getEvent eventID tenantId
  if enrich then
    match r.1 with
    | some event =>
      let nm := namesForIds ks
        { initUserDomain := event.payload.initiator.domainID,
          initUserProject := event.payload.initiator.projectID,
          initUser := event.payload.initiator.userID,
          target := event.payload.target.id,
          project := event.payload.project,
          user := event.payload.user,
          group := event.payload.group,
          role := event.payload.role } event.payload.target.typeURI
      let p := event.payload
      { event := some { event with payload := { p with
          initiator := { p.initiator with
            domainName := nm.1.initUserDomain,
            projectName := nm.1.initUserProject,
            userName := nm.1.initUser },
          target := { p.target with name := nm.1.target },
          projectName := nm.1.project,
          userName := nm.1.user,
          groupName := nm.1.group,
          roleName := nm.1.role } },
        isErr := r.2, idCalls := nm.2 }
    | none => { event := none, isErr := r.2, idCalls := [] }
  else { event := r.1, isErr := r.2, idCalls := [] }

/-- How one enrichment lookup determines one name field of the enriched
event: skipped (empty) when the id is empty, otherwise the lookup's value
component — which is `""` exactly when the lookup fails, for a driver
satisfying `ErrEmpty`. -/
def nameSpec (lookup : String → String × Bool) (id output : String) : Prop :=
  (id ≠ "" → output = (lookup id).1) ∧
  ((lookup id).2 = true → output = "") ∧
  (id = "" → output = "")

/-- The in-repo identity driver (pkg/keystone) returns `""` together with
every non-nil error: every error path returns the zero value.  Oracles
modelling it satisfy this. -/
def ErrEmpty (ks : Identity) : Prop :=
  (∀ s, (ks.domainName s).2 = true → (ks.domainName s).1 = "") ∧
  (∀ s, (ks.projectName s).2 = true → (ks.projectName s).1 = "") ∧
  (∀ s, (ks.userName s).2 = true → (ks.userName s).1 = "") ∧
  (∀ s, (ks.roleName s).2 = true → (ks.roleName s).1 = "") ∧
  (∀ s, (ks.groupName s).2 = true → (ks.groupName s).1 = "")

/-- Conclusion of claim C8 at the given arguments: the request's error
status is exactly the storage error (failed lookups never propagate), the
ok-status of `GetEvents` does not depend on the enrichment lookups at all,
and each name field of the enriched event obeys `nameSpec` for its lookup:
left empty when the lookup fails, filled with the looked-up name when it
succeeds. -/
def EnrichmentErrorRecovery (ks : Identity) (st : StorageOracle) (f : Filter)
    (eid tid : String) : Prop :=
  (GetEvent ks true st eid tid).isErr = (st.getEvent eid tid).2 ∧
  ((GetEvents ks true st f tid).result.isOk = (GetEvents ks false st f tid).result.isOk) ∧
  ∀ ev₀, (st.getEvent eid tid).1 = some ev₀ →
    ∃ ev, (GetEvent ks true st eid tid).event = some ev ∧
      nameSpec ks.domainName ev₀.payload.initiator.domainID ev.payload.initiator.domainName ∧
      nameSpec ks.projectName ev₀.payload.initiator.projectID ev.payload.initiator.projectName ∧
      nameSpec ks.userName ev₀.payload.initiator.userID ev.payload.initiator.userName ∧
      nameSpec ks.projectName ev₀.payload.project ev.payload.projectName ∧
      nameSpec ks.userName ev₀.payload.user ev.payload.userName ∧
      nameSpec ks.groupName ev₀.payload.group ev.payload.groupName ∧
      nameSpec ks.roleName ev₀.payload.role ev.payload.roleName ∧
      (ev₀.payload.target.typeURI = "data/security/project" →
        ev.payload.target.name = (ks.projectName ev₀.payload.target.id).1)

end Hermes

/-! ### Concrete instances used in counterexamples and witnesses -/

/-- Cache state after inserting token `"a"` expiring at instant 10 and then
token `"b"` expiring at instant 5. -/
def c1cache : Keystone.KeystoneTokenCache :=
  Keystone.addTokenToCache
    (Keystone.addTokenToCache Keystone.emptyTokenCache "a" { expiresAt := some 10 })
    "b" { expiresAt := some 5 }

/-- An identity oracle that can resolve the user name `"alice"`. -/
def ksC3 : Hermes.Identity :=
  { domainName := fun _ => ("", true), projectName := fun _ => ("", true),
    userName := fun _ => ("", true), roleName := fun _ => ("", true),
    groupName := fun _ => ("", true),
    userId := fun n => if n = "alice" then ("uid-1", false) else ("", true) }

/-- An identity oracle on which every lookup succeeds. -/
def ksOk : Hermes.Identity :=
  { domainName := fun _ => ("dom", false), projectName := fun _ => ("proj", false),
    userName := fun _ => ("usr", false), roleName := fun _ => ("rol", false),
    groupName := fun _ => ("grp", false), userId := fun _ => ("uid", false) }

/-- An identity oracle on which domain lookups fail (with the empty value,
as the keystone driver does) and all other lookups succeed. -/
def ksC8 : Hermes.Identity :=
  { domainName := fun _ => ("", true), projectName := fun _ => ("proj", false),
    userName := fun _ => ("usr", false), roleName := fun _ => ("rol", false),
    groupName := fun _ => ("grp", false), userId := fun _ => ("uid", false) }

/-- A filter selecting by user name. -/
def fC3 : Hermes.Filter := { userName := "alice", limit := 1 }

/-- A filter with a resource name but no resource type. -/
def fC4 : Hermes.Filter := { resourceName := "server-7", limit := 1 }

/-- A filter whose offset/limit sum wraps around the 64-bit `uint`. -/
def fC5 : Hermes.Filter := { offset := 2 ^ 64 - 1, limit := 1 }

/-- A storage oracle with the mock driver's `MaxLimit() = 100` and no
events. -/
def stEmpty : Hermes.StorageOracle :=
  { getEvents := fun _ _ => ([], 0, false), getEvent := fun _ _ => (none, false),
    maxLimit := 100 }

/-- The first event of the mock driver's `GetEvents` page (mock.go). -/
def evC6 : Storage.EventDetail :=
  { publisherID := "identity.keystone-2031324599-gujvn",
    eventType := "identity.project.deleted",
    payload := { eventTime := "2017-05-02T12:02:46.726056+0000",
                 initiator := { typeURI := "service/security/account/user",
                                projectID := "6a030751147a45c0863c3b5bde32c744",
                                userID := "eb5cd8f904b06e8b2a6eb86c8b04c08e6efb89b92da77905cc8c475f30b0b812",
                                id := "4a70d16f08b05d038c1e5ee7a5ee554e" },
                 target := { typeURI := "data/security/project",
                             id := "b3b70c8271a845709f9a03030e705da7" } },
    messageID := "5a32c2f3-2996-4f46-819c-6197cf06037e" }

/-- A backend event that already carries names, including a target name. -/
def evC7 : Storage.EventDetail :=
  { eventType := "identity.project.deleted",
    messageID := "m-1",
    payload := { initiator := { domainID := "d1", domainName := "dom0",
                                projectID := "p1", projectName := "proj0",
                                userID := "u1", userName := "usr0" },
                 project := "pp1", user := "uu1", group := "gg1", role := "rr1",
                 target := { typeURI := "data/security/project", id := "t1",
                             name := "widget" } } }

/-- A storage oracle serving `evC7` for both list and detail queries. -/
def stC7 : Hermes.StorageOracle :=
  { getEvents := fun _ _ => ([evC7], 1, false),
    getEvent := fun _ _ => (some evC7, false), maxLimit := 100 }

/-- A provider on which every user-name search finds two users. -/
def providerMulti : String → Keystone.UsersQueryResult :=
  fun _ => Keystone.UsersQueryResult.users
    [{ uuid := "u-1", name := "bob" }, { uuid := "u-2", name := "bob" }]

/-- A provider on which every user-name search finds no user. -/
def providerNone : String → Keystone.UsersQueryResult :=
  fun _ => Keystone.UsersQueryResult.users []

/-! ### Helper lemmas -/

/-- The re-sort branch of `addTokenToCache` never runs: `lastItem` is the
element that was just pushed, so `expiryTime.Before(lastItem.Value)` is
always false and the new expiry simply stays at the back of the list. -/
lemma addTokenToCache_eList_append (c : Keystone.KeystoneTokenCache) (id : String)
    (tok : Keystone.KeystoneToken) (e : Nat) (h : tok.expiresAt = some e) :
    (Keystone.addTokenToCache c id tok).eList = c.eList ++ [e] := by
  unfold Keystone.addTokenToCache
  rw [h]
  simp [List.getLast?_concat]

/-- `eventsList` produces one `ListEvent` per storage event. -/
lemma eventsList_length (ks : Hermes.Identity) (enrich : Bool)
    (evs : List Storage.EventDetail) :
    ((Hermes.eventsList ks enrich evs).1).length = evs.length := by
  induction evs with
  | nil => rfl
  | cons ev rest ih => simp [Hermes.eventsList, ih]

/-- With the enrichment flag off, `eventsList` issues no identity calls. -/
lemma eventsList_noEnrich_calls (ks : Hermes.Identity) (evs : List Storage.EventDetail) :
    (Hermes.eventsList ks false evs).2 = [] := by
  induction evs with
  | nil => rfl
  | cons ev rest ih => simp [Hermes.eventsList, ih]

/-- The filter translator never issues an identity call (the `UserId`
resolution is commented out in the source). -/
lemma storageFilter_idCalls (ks : Hermes.Identity) (m : Nat) (f : Hermes.Filter) :
    (Hermes.storageFilter ks m f).2 = [] := by
  by_cases hc : (f.offset + (if f.limit = 0 then 10 else f.limit)) % Hermes.uintMod > m <;>
    simp [Hermes.storageFilter, hc]

/-- With the enrichment flag off, `GetEvents` issues no identity calls. -/
lemma getEvents_noEnrich_idCalls (ks : Hermes.Identity) (st : Hermes.StorageOracle)
    (f : Hermes.Filter) (tid : String) :
    (Hermes.GetEvents ks false st f tid).idCalls = [] := by
  rcases hsf : Hermes.storageFilter ks st.maxLimit f with ⟨res, calls⟩
  have hc : calls = [] := by
    have h := storageFilter_idCalls ks st.maxLimit f
    rw [hsf] at h
    exact h
  cases res with
  | error e => simp [Hermes.GetEvents, hsf, hc]
  | ok sf =>
    simp only [Hermes.GetEvents, hsf, hc]
    split <;> simp [eventsList_noEnrich_calls]

/-- `nameSpec` holds of the value a conditional enrichment lookup writes,
for any lookup that returns `""` alongside an error. -/
lemma nameSpec_of_ite (lookup : String → String × Bool) (id : String)
    (hEmpty : ∀ s, (lookup s).2 = true → (lookup s).1 = "") :
    Hermes.nameSpec lookup id (if id ≠ "" then (lookup id).1 else "") := by
  refine ⟨?_, ?_, ?_⟩
  · intro h; simp [h]
  · intro herr
    by_cases h : id = ""
    · simp [h]
    · simp [h, hEmpty id herr]
  · intro h; simp [h]

/-- The `init_user_domain` entry of the name map built by `namesForIds`. -/
lemma namesForIds_initUserDomain (ks : Hermes.Identity) (m : Hermes.IdMap) (t : String) :
    (Hermes.namesForIds ks m t).1.initUserDomain =
      if m.initUserDomain ≠ "" then (ks.domainName m.initUserDomain).1 else "" := by
  by_cases h : m.initUserDomain = "" <;> simp [Hermes.namesForIds, h]

/-- The `init_user_project` entry of the name map built by `namesForIds`. -/
lemma namesForIds_initUserProject (ks : Hermes.Identity) (m : Hermes.IdMap) (t : String) :
    (Hermes.namesForIds ks m t).1.initUserProject =
      if m.initUserProject ≠ "" then (ks.projectName m.initUserProject).1 else "" := by
  by_cases h : m.initUserProject = "" <;> simp [Hermes.namesForIds, h]

/-- The `init_user` entry of the name map built by `namesForIds`. -/
lemma namesForIds_initUser (ks : Hermes.Identity) (m : Hermes.IdMap) (t : String) :
    (Hermes.namesForIds ks m t).1.initUser =
      if m.initUser ≠ "" then (ks.userName m.initUser).1 else "" := by
  by_cases h : m.initUser = "" <;> simp [Hermes.namesForIds, h]

/-- The `project` entry of the name map built by `namesForIds`. -/
lemma namesForIds_project (ks : Hermes.Identity) (m : Hermes.IdMap) (t : String) :
    (Hermes.namesForIds ks m t).1.project =
      if m.project ≠ "" then (ks.projectName m.project).1 else "" := by
  by_cases h : m.project = "" <;> simp [Hermes.namesForIds, h]

/-- The `user` entry of the name map built by `namesForIds`. -/
lemma namesForIds_user (ks : Hermes.Identity) (m : Hermes.IdMap) (t : String) :
    (Hermes.namesForIds ks m t).1.user =
      if m.user ≠ "" then (ks.userName m.user).1 else "" := by
  by_cases h : m.user = "" <;> simp [Hermes.namesForIds, h]

/-- The `group` entry of the name map built by `namesForIds`. -/
lemma namesForIds_group (ks : Hermes.Identity) (m : Hermes.IdMap) (t : String) :
    (Hermes.namesForIds ks m t).1.group =
      if m.group ≠ "" then (ks.groupName m.group).1 else "" := by
  by_cases h : m.group = "" <;> simp [Hermes.namesForIds, h]

/-- The `role` entry of the name map built by `namesForIds`. -/
lemma namesForIds_role (ks : Hermes.Identity) (m : Hermes.IdMap) (t : String) :
    (Hermes.namesForIds ks m t).1.role =
      if m.role ≠ "" then (ks.roleName m.role).1 else "" := by
  by_cases h : m.role = "" <;> simp [Hermes.namesForIds, h]

/-- For project targets, the `target` entry of the name map is the project
name lookup of the target id. -/
lemma namesForIds_target_project (ks : Hermes.Identity) (m : Hermes.IdMap) :
    (Hermes.namesForIds ks m "data/security/project").1.target =
      (ks.projectName m.target).1 := by
  simp [Hermes.namesForIds]

/-! ### Claims -/

/-- Claim C1 (code bug, concrete run): after inserting token `"a"` with
expiry 10 and then token `"b"` with expiry 5, a `getCachedToken` read of
`"b"` at `now = 7` returns token `"b"` even though its expiry 5 is at or
before `now` — the eviction scan stops at the unexpired front element 10
because the expiry list is not actually sorted, contradicting the claimed
invariant that no read returns an expired token. -/
theorem tokenCache_get_returns_expired_token :
    (Keystone.getCachedToken c1cache "b" 7).1 = some { expiresAt := some 5 } ∧ 5 ≤ 7 := by
  decide

/-- Claim C2 (code bug, concrete run): after inserting expiry 10 and then
expiry 5, `expiry_order` is `[10, 5]` — the new instant was appended at
the back and *not* shifted into place, so the list is no longer sorted
earliest-first.  The re-sort guard compares the just-appended element with
itself (`lastItem := cache.eList.Back()` *after* the push) and therefore
never fires; see also `addTokenToCache_eList_append`. -/
theorem tokenCache_insert_leaves_list_unsorted :
    c1cache.eList = [10, 5] ∧ ¬ List.Sorted (· ≤ ·) c1cache.eList := by
  decide

/-- Claim C3, counterexample: with a filter whose `user_name` is `"alice"`
and an identity client that successfully resolves `"alice"` to `"uid-1"`,
the translator issues no identity call at all and places the *name*
`"alice"` — not the resolved id `"uid-1"` — in the backend filter's
`user_id` field.  The `UserId` resolution claimed by the spec is commented
out in the source. -/
theorem storageFilter_userName_not_resolved_cex :
    (Hermes.storageFilter ksC3 100 fC3).2 = [] ∧
    (Hermes.storageFilter ksC3 100 fC3).1 = Except.ok { userId := "alice", limit := 1 } ∧
    ksC3.userId "alice" = ("uid-1", false) ∧
    ("alice" : String) ≠ "uid-1" := by
  refine ⟨rfl, rfl, rfl, by decide⟩

/-- Claim C3, amended: for every filter with non-empty `user_name`, the
translator copies the name verbatim into the backend filter's `user_id`
field and never calls the identity client (the resolution code is
commented out; only a debug line is logged). -/
theorem storageFilter_userName_passthrough (ks : Hermes.Identity) (m : Nat)
    (f : Hermes.Filter) (h : f.userName ≠ "") :
    (Hermes.storageFilter ks m f).2 = [] ∧
    ∀ sf, (Hermes.storageFilter ks m f).1 = Except.ok sf → sf.userId = f.userName := by
  by_cases hc : (f.offset + (if f.limit = 0 then 10 else f.limit)) % Hermes.uintMod > m
  · refine ⟨by simp [Hermes.storageFilter, hc], ?_⟩
    intro sf hsf
    simp [Hermes.storageFilter, hc] at hsf
  · refine ⟨by simp [Hermes.storageFilter, hc], ?_⟩
    intro sf hsf
    simp [Hermes.storageFilter, hc] at hsf
    simp [← hsf, Hermes.applyUserName, Hermes.applyResourceName, h]

/-- Claim C3, witness: the amended statement evaluated on the `"alice"`
filter against the mock limit 100. -/
theorem storageFilter_userName_passthrough_witness :
    fC3.userName ≠ "" ∧
    ((Hermes.storageFilter ksC3 100 fC3).2 = [] ∧
     ∀ sf, (Hermes.storageFilter ksC3 100 fC3).1 = Except.ok sf → sf.userId = fC3.userName) :=
  ⟨by decide, storageFilter_userName_passthrough ksC3 100 fC3 (by decide)⟩

/-- Claim C4, counterexample: a filter with non-empty `resource_name` and
empty `resource_type` does *not* fail with `bad_request`: the translation
succeeds (with `resource_id` left empty) and the identity client is never
called — the whole `resource_name` branch is an empty TODO body in the
source. -/
theorem storageFilter_resourceName_no_bad_request_cex :
    fC4.resourceName ≠ "" ∧ fC4.resourceType = "" ∧
    (Hermes.storageFilter ksC3 100 fC4).1 = Except.ok { limit := 1 } ∧
    (Hermes.storageFilter ksC3 100 fC4).2 = [] := by
  refine ⟨by decide, rfl, rfl, rfl⟩

/-- Claim C4, amended: `resource_name` has no effect on translation at
all — the result is independent of its value, no identity call is issued,
and a successful translation always carries an empty `resource_id`
(the resolution is an unimplemented TODO). -/
theorem storageFilter_resourceName_ignored (ks : Hermes.Identity) (m : Nat)
    (f : Hermes.Filter) (v : String) :
    Hermes.storageFilter ks m { f with resourceName := v } = Hermes.storageFilter ks m f ∧
    (Hermes.storageFilter ks m f).2 = [] ∧
    ∀ sf, (Hermes.storageFilter ks m f).1 = Except.ok sf → sf.resourceId = "" := by
  refine ⟨rfl, ?_, ?_⟩
  · by_cases hc : (f.offset + (if f.limit = 0 then 10 else f.limit)) % Hermes.uintMod > m <;>
      simp [Hermes.storageFilter, hc]
  · intro sf hsf
    by_cases hc : (f.offset + (if f.limit = 0 then 10 else f.limit)) % Hermes.uintMod > m
    · simp [Hermes.storageFilter, hc] at hsf
    · simp [Hermes.storageFilter, hc] at hsf
      simp [← hsf, Hermes.applyUserName, Hermes.applyResourceName, Hermes.baseStorageFilter,
        apply_ite]

/-- Claim C4, witness: the amended statement evaluated on the
`"server-7"` resource-name filter against the mock limit 100. -/
theorem storageFilter_resourceName_ignored_witness :
    Hermes.storageFilter ksC3 100 { fC4 with resourceName := "x" } =
      Hermes.storageFilter ksC3 100 fC4 ∧
    (Hermes.storageFilter ksC3 100 fC4).2 = [] ∧
    ({ limit := 1 } : Storage.Filter).resourceId = "" := by
  have h := storageFilter_resourceName_ignored ksC3 100 fC4 "x"
  exact ⟨h.1, h.2.1, h.2.2 { limit := 1 } rfl⟩

/-- Claim C5, counterexample: the offset/limit check uses Go `uint`
addition, which wraps modulo `2 ^ 64`.  With `offset = 2 ^ 64 - 1` and
`limit = 1` the mathematical sum `2 ^ 64` exceeds the maximum 100, yet the
translation succeeds and `storage.GetEvents` *is* called — the claim's
"offset + limit exceeds MaxLimit() ⇒ error, storage never called" fails at
this input. -/
theorem storageFilter_uint_overflow_cex :
    fC5.offset + fC5.limit > 100 ∧
    (Hermes.storageFilter ksC3 100 fC5).1 = Except.ok { offset := 2 ^ 64 - 1, limit := 1 } ∧
    (Hermes.GetEvents ksC3 false stEmpty fC5 "t").storageCalls =
      [{ offset := 2 ^ 64 - 1, limit := 1 }] := by
  refine ⟨by decide, rfl, rfl⟩

/-- Claim C5, amended: the translator first rewrites limit 0 to 10; then,
writing `⊕` for 64-bit wrapping addition, if `offset ⊕ limit` exceeds
`MaxLimit()` the request fails with the exact Go error message and
`storage.GetEvents` is never called, and if `offset ⊕ limit ≤ MaxLimit()`
(equality included) storage is called exactly once with the translated
filter. -/
theorem getEvents_limit_check (ks : Hermes.Identity) (enrich : Bool)
    (st : Hermes.StorageOracle) (f : Hermes.Filter) (tid : String) :
    ((f.offset + (if f.limit = 0 then 10 else f.limit)) % Hermes.uintMod > st.maxLimit →
      (Hermes.GetEvents ks enrich st f tid).result =
        Except.error
          (Hermes.limitErrMsg f.offset (if f.limit = 0 then 10 else f.limit) st.maxLimit) ∧
      (Hermes.GetEvents ks enrich st f tid).storageCalls = []) ∧
    ((f.offset + (if f.limit = 0 then 10 else f.limit)) % Hermes.uintMod ≤ st.maxLimit →
      (Hermes.GetEvents ks enrich st f tid).storageCalls =
        [Hermes.applyUserName f (Hermes.applyResourceName f
          (Hermes.baseStorageFilter f (if f.limit = 0 then 10 else f.limit)))]) := by
  constructor
  · intro hc
    constructor <;> simp [Hermes.GetEvents, Hermes.storageFilter, hc]
  · intro hc
    have hc' : ¬ (f.offset + (if f.limit = 0 then 10 else f.limit)) % Hermes.uintMod
        > st.maxLimit := not_lt.mpr hc
    simp only [Hermes.GetEvents, Hermes.storageFilter, hc', if_false]
    split <;> split <;> rfl

/-- Claim C5, witness: against the mock maximum 100, offset 80 with limit
50 is rejected with the exact message and storage is never called. -/
theorem getEvents_limit_check_witness :
    (Hermes.GetEvents ksC3 false stEmpty { offset := 80, limit := 50 } "t").result =
      Except.error (Hermes.limitErrMsg 80 50 100) ∧
    (Hermes.GetEvents ksC3 false stEmpty { offset := 80, limit := 50 } "t").storageCalls = [] ∧
    Hermes.limitErrMsg 80 50 100 = "offset 80 plus limit 50 exceeds the maximum of 100" := by
  have h := (getEvents_limit_check ksC3 false stEmpty { offset := 80, limit := 50 } "t").1
    (by decide)
  exact ⟨h.1, h.2, by decide⟩

/-- Claim C6: for every list of backend events, the projection produces one
`ListEvent` per event, and the event at every index satisfies: `event_id`
equals the backing event's `message_id`, `source` equals
`strings.SplitN(event_type, ".", 2)[0]` (the first dot-separated segment),
`resource_id` equals `payload.target.id`, and `resource_type` equals
`payload.target.typeURI` — with or without enrichment. -/
theorem eventsList_projection_fields (ks : Hermes.Identity) (enrich : Bool)
    (evs : List Storage.EventDetail) (i : Nat) (h : i < evs.length) :
    ((Hermes.eventsList ks enrich evs).1).length = evs.length ∧
    ((Hermes.eventsList ks enrich evs).1.getD i {}).id = (evs.getD i {}).messageID ∧
    ((Hermes.eventsList ks enrich evs).1.getD i {}).source =
      (Hermes.goSplitN2Dot (evs.getD i {}).eventType).headD "" ∧
    ((Hermes.eventsList ks enrich evs).1.getD i {}).resourceId =
      (evs.getD i {}).payload.target.id ∧
    ((Hermes.eventsList ks enrich evs).1.getD i {}).resourceType =
      (evs.getD i {}).payload.target.typeURI := by
  refine ⟨eventsList_length ks enrich evs, ?_⟩
  induction evs generalizing i with
  | nil => cases h
  | cons ev rest ih =>
    cases i with
    | zero => cases enrich <;> exact ⟨rfl, rfl, rfl, rfl⟩
    | succ j => exact ih j (Nat.lt_of_succ_lt_succ h)

/-- Claim C6, witness: the projection evaluated on the mock driver's first
event (with enrichment on). -/
theorem eventsList_projection_fields_witness :
    0 < [evC6].length ∧
    (((Hermes.eventsList ksOk true [evC6]).1).length = [evC6].length ∧
     ((Hermes.eventsList ksOk true [evC6]).1.getD 0 {}).id = ([evC6].getD 0 {}).messageID ∧
     ((Hermes.eventsList ksOk true [evC6]).1.getD 0 {}).source =
       (Hermes.goSplitN2Dot ([evC6].getD 0 {}).eventType).headD "" ∧
     ((Hermes.eventsList ksOk true [evC6]).1.getD 0 {}).resourceId =
       ([evC6].getD 0 {}).payload.target.id ∧
     ((Hermes.eventsList ksOk true [evC6]).1.getD 0 {}).resourceType =
       ([evC6].getD 0 {}).payload.target.typeURI) :=
  ⟨by decide, eventsList_projection_fields ksOk true [evC6] 0 (by decide)⟩

/-- Claim C7, counterexample: with enrichment off the identity client is
indeed untouched, but `resource_name` is *not* "exactly the value present
in the backend event data": for a backend event whose `payload.target.name`
is `"widget"`, the returned `ListEvent.resource_name` is `""` — the
projection never copies the backend target name. -/
theorem enrichment_off_resource_name_cex :
    evC7.payload.target.name = "widget" ∧
    (Hermes.GetEvents ksOk false stC7 {} "t").idCalls = [] ∧
    (Hermes.GetEvents ksOk false stC7 {} "t").result =
      Except.ok ([Hermes.listEventOf evC7], 1) ∧
    (Hermes.listEventOf evC7).resourceName = "" ∧
    (Hermes.listEventOf evC7).resourceName ≠ evC7.payload.target.name := by
  refine ⟨rfl, rfl, rfl, rfl, by decide⟩

/-- Claim C7, amended: when the enrichment flag is off, `GetEvents` issues
no identity-client calls, the initiator name fields (`domain_name`,
`project_name`, `user_name`) of every returned `ListEvent` are verbatim the
backend values, and `resource_name` is always empty (it is never copied
from `payload.target.name`). -/
theorem enrichment_off_no_lookups_names_verbatim (ks : Hermes.Identity)
    (st : Hermes.StorageOracle) (f : Hermes.Filter) (tid : String)
    (evs : List Storage.EventDetail) (i : Nat) (h : i < evs.length) :
    (Hermes.GetEvents ks false st f tid).idCalls = [] ∧
    ((Hermes.eventsList ks false evs).1.getD i {}).initiator.domainName =
      (evs.getD i {}).payload.initiator.domainName ∧
    ((Hermes.eventsList ks false evs).1.getD i {}).initiator.projectName =
      (evs.getD i {}).payload.initiator.projectName ∧
    ((Hermes.eventsList ks false evs).1.getD i {}).initiator.userName =
      (evs.getD i {}).payload.initiator.userName ∧
    ((Hermes.eventsList ks false evs).1.getD i {}).resourceName = "" := by
  refine ⟨getEvents_noEnrich_idCalls ks st f tid, ?_⟩
  induction evs generalizing i with
  | nil => cases h
  | cons ev rest ih =>
    cases i with
    | zero => exact ⟨rfl, rfl, rfl, rfl⟩
    | succ j => exact ih j (Nat.lt_of_succ_lt_succ h)

/-- Claim C7, witness: the amended statement evaluated on the event that
carries backend names. -/
theorem enrichment_off_no_lookups_names_verbatim_witness :
    0 < [evC7].length ∧
    ((Hermes.GetEvents ksOk false stC7 {} "t").idCalls = [] ∧
     ((Hermes.eventsList ksOk false [evC7]).1.getD 0 {}).initiator.domainName =
       ([evC7].getD 0 {}).payload.initiator.domainName ∧
     ((Hermes.eventsList ksOk false [evC7]).1.getD 0 {}).initiator.projectName =
       ([evC7].getD 0 {}).payload.initiator.projectName ∧
     ((Hermes.eventsList ksOk false [evC7]).1.getD 0 {}).initiator.userName =
       ([evC7].getD 0 {}).payload.initiator.userName ∧
     ((Hermes.eventsList ksOk false [evC7]).1.getD 0 {}).resourceName = "") :=
  ⟨by decide, enrichment_off_no_lookups_names_verbatim ksOk stC7 {} "t" [evC7] 0 (by decide)⟩

/-- Claim C8: for an identity driver that (like the in-repo keystone
driver) returns `""` alongside every error, failed enrichment lookups are
never propagated — `GetEvent` returns exactly the storage error status and
the ok-status of `GetEvents` does not depend on the lookups — and every
name field of the enriched event obeys `nameSpec`: left empty when its
lookup fails (or is skipped), filled with the looked-up name when it
succeeds. -/
theorem enrichment_errors_recovered (ks : Hermes.Identity) (st : Hermes.StorageOracle)
    (f : Hermes.Filter) (eid tid : String) (hks : Hermes.ErrEmpty ks) :
    Hermes.EnrichmentErrorRecovery ks st f eid tid := by
  obtain ⟨hDom, hProj, hUser, hRole, hGroup⟩ := hks
  refine ⟨?_, ?_, ?_⟩
  · rcases hr0 : st.getEvent eid tid with ⟨e, flag⟩
    cases e <;> simp [Hermes.GetEvent, hr0]
  · rcases hsf : Hermes.storageFilter ks st.maxLimit f with ⟨res, calls⟩
    cases res with
    | error e => simp [Hermes.GetEvents, hsf]
    | ok sf =>
      simp only [Hermes.GetEvents, hsf]
      split <;> rfl
  · intro ev₀ h0
    simp only [Hermes.GetEvent, h0]
    refine ⟨_, rfl, ?_, ?_, ?_, ?_, ?_, ?_, ?_, ?_⟩
    · simp only [namesForIds_initUserDomain]
      exact nameSpec_of_ite ks.domainName _ hDom
    · simp only [namesForIds_initUserProject]
      exact nameSpec_of_ite ks.projectName _ hProj
    · simp only [namesForIds_initUser]
      exact nameSpec_of_ite ks.userName _ hUser
    · simp only [namesForIds_project]
      exact nameSpec_of_ite ks.projectName _ hProj
    · simp only [namesForIds_user]
      exact nameSpec_of_ite ks.userName _ hUser
    · simp only [namesForIds_group]
      exact nameSpec_of_ite ks.groupName _ hGroup
    · simp only [namesForIds_role]
      exact nameSpec_of_ite ks.roleName _ hRole
    · intro ht
      rw [ht, namesForIds_target_project]

/-- Claim C8, witness: on a driver whose domain lookups fail (with empty
value) and whose other lookups succeed, applied to the stored event. -/
theorem enrichment_errors_recovered_witness :
    Hermes.ErrEmpty ksC8 ∧ Hermes.EnrichmentErrorRecovery ksC8 stC7 {} "e1" "t1" := by
  have hks : Hermes.ErrEmpty ksC8 := by
    refine ⟨?_, ?_, ?_, ?_, ?_⟩ <;> intro s h
    · rfl
    · exact Bool.noConfusion h
    · exact Bool.noConfusion h
    · exact Bool.noConfusion h
    · exact Bool.noConfusion h
  exact ⟨hks, enrichment_errors_recovered ksC8 stC7 {} "e1" "t1" hks⟩

/-- Claim C9: on a cache miss, `UserId` queries the provider's user search,
and on a successful extraction: zero matches return the
"No user found with name …" error (with empty id), exactly one match
returns that user's id without error, and more than one match returns the
first match's id with a warning and no error. -/
theorem userId_match_count_semantics (provider : String → Keystone.UsersQueryResult)
    (uc nc : Keystone.NameCache) (name : String)
    (hmiss : Keystone.getFromCache uc name = none) :
    ∀ r, provider name = Keystone.UsersQueryResult.users r →
      (Keystone.UserId provider uc nc name).searched = true ∧
      (r = [] →
        (Keystone.UserId provider uc nc name).isErr = true ∧
        (Keystone.UserId provider uc nc name).userId = "" ∧
        (Keystone.UserId provider uc nc name).errMsg = Keystone.noUserMsg name) ∧
      (∀ u, r = [u] →
        (Keystone.UserId provider uc nc name).userId = u.uuid ∧
        (Keystone.UserId provider uc nc name).isErr = false ∧
        (Keystone.UserId provider uc nc name).warnings = []) ∧
      (∀ u v t, r = u :: v :: t →
        (Keystone.UserId provider uc nc name).userId = u.uuid ∧
        (Keystone.UserId provider uc nc name).isErr = false ∧
        (Keystone.UserId provider uc nc name).warnings = [Keystone.multiUserMsg name]) := by
  intro r hr
  refine ⟨?_, ?_, ?_, ?_⟩
  · simp [Keystone.UserId, hmiss, hr]
  · rintro rfl
    simp [Keystone.UserId, hmiss, hr]
  · rintro u rfl
    simp [Keystone.UserId, hmiss, hr]
  · rintro u v t rfl
    simp [Keystone.UserId, hmiss, hr]

/-- Claim C9, witness: a cold-cache search for `"bob"` finding two users
returns the first id `"u-1"`, no error, and the multiple-match warning. -/
theorem userId_match_count_semantics_witness :
    Keystone.getFromCache Keystone.emptyNameCache "bob" = none ∧
    (Keystone.UserId providerMulti Keystone.emptyNameCache Keystone.emptyNameCache
      "bob").userId = "u-1" ∧
    (Keystone.UserId providerMulti Keystone.emptyNameCache Keystone.emptyNameCache
      "bob").isErr = false ∧
    (Keystone.UserId providerMulti Keystone.emptyNameCache Keystone.emptyNameCache
      "bob").warnings = [Keystone.multiUserMsg "bob"] ∧
    (Keystone.UserId providerMulti Keystone.emptyNameCache Keystone.emptyNameCache
      "bob").searched = true := by
  have h := userId_match_count_semantics providerMulti Keystone.emptyNameCache
    Keystone.emptyNameCache "bob" rfl _ rfl
  exact ⟨rfl, (h.2.2.2 _ _ _ rfl).1, (h.2.2.2 _ _ _ rfl).2.1, (h.2.2.2 _ _ _ rfl).2.2, h.1⟩

/-- Claim C10 (implicit): after a cold-cache `UserId` call whose search
found zero matches (and which therefore errored), the empty id is
nevertheless written into the name→id cache under the name — and the name
into the id→name cache under the empty id — so a repeated `UserId` call is
a cache hit that returns the empty id with *no* error, issues no provider
search, and leaves both caches unchanged (hence all later calls behave the
same). -/
theorem userId_zero_match_poisons_cache
    (provider : String → Keystone.UsersQueryResult) (uc nc : Keystone.NameCache)
    (name : String)
    (hmiss : Keystone.getFromCache uc name = none)
    (hzero : provider name = Keystone.UsersQueryResult.users []) :
    (Keystone.UserId provider uc nc name).isErr = true ∧
    Keystone.getFromCache (Keystone.UserId provider uc nc name).userIdCache name = some "" ∧
    Keystone.getFromCache (Keystone.UserId provider uc nc name).userNameCache "" = some name ∧
    (Keystone.UserId provider (Keystone.UserId provider uc nc name).userIdCache
      (Keystone.UserId provider uc nc name).userNameCache name).userId = "" ∧
    (Keystone.UserId provider (Keystone.UserId provider uc nc name).userIdCache
      (Keystone.UserId provider uc nc name).userNameCache name).isErr = false ∧
    (Keystone.UserId provider (Keystone.UserId provider uc nc name).userIdCache
      (Keystone.UserId provider uc nc name).userNameCache name).searched = false ∧
    (Keystone.UserId provider (Keystone.UserId provider uc nc name).userIdCache
      (Keystone.UserId provider uc nc name).userNameCache name).userIdCache =
      (Keystone.UserId provider uc nc name).userIdCache ∧
    (Keystone.UserId provider (Keystone.UserId provider uc nc name).userIdCache
      (Keystone.UserId provider uc nc name).userNameCache name).userNameCache =
      (Keystone.UserId provider uc nc name).userNameCache := by
  simp only [Keystone.UserId, hmiss, hzero]
  simp [Keystone.getFromCache, Keystone.updateCache]

/-- Claim C10, witness: a zero-match search for `"carol"` errors yet
poisons the cache, and the repeated call is an error-free cache hit
returning the empty id without a provider search. -/
theorem userId_zero_match_poisons_cache_witness :
    Keystone.getFromCache Keystone.emptyNameCache "carol" = none ∧
    providerNone "carol" = Keystone.UsersQueryResult.users [] ∧
    ((Keystone.UserId providerNone Keystone.emptyNameCache Keystone.emptyNameCache
       "carol").isErr = true ∧
     Keystone.getFromCache
       (Keystone.UserId providerNone Keystone.emptyNameCache Keystone.emptyNameCache
         "carol").userIdCache "carol" = some "" ∧
     (Keystone.UserId providerNone
       (Keystone.UserId providerNone Keystone.emptyNameCache Keystone.emptyNameCache
         "carol").userIdCache
       (Keystone.UserId providerNone Keystone.emptyNameCache Keystone.emptyNameCache
         "carol").userNameCache "carol").userId = "" ∧
     (Keystone.UserId providerNone
       (Keystone.UserId providerNone Keystone.emptyNameCache Keystone.emptyNameCache
         "carol").userIdCache
       (Keystone.UserId providerNone Keystone.emptyNameCache Keystone.emptyNameCache
         "carol").userNameCache "carol").isErr = false ∧
     (Keystone.UserId providerNone
       (Keystone.UserId providerNone Keystone.emptyNameCache Keystone.emptyNameCache
         "carol").userIdCache
       (Keystone.UserId providerNone Keystone.emptyNameCache Keystone.emptyNameCache
         "carol").userNameCache "carol").searched = false) := by
  have h := userId_zero_match_poisons_cache providerNone Keystone.emptyNameCache
    Keystone.emptyNameCache "carol" rfl rfl
  exact ⟨rfl, rfl, h.1, h.2.1, h.2.2.2.1, h.2.2.2.2.1, h.2.2.2.2.2.1⟩
